import Mathlib

/-!
Verification of the cloud-bandwidth measurement pipeline (cbandwidth.go).

The development shallowly embeds the pipeline of the Go program: endpoint
registry construction (mapPerfDest), failure-marker classification of probe
output, numeric extraction and unit normalization, metric payload building
for the two sinks, the sink dispatchers, and the sweep scheduler of
iperfRun / netperfRun.  Strings are handled at the character-list level so
every definition is executable and provable by structural induction.

Helper functions of the repository that are not present in the provided
source (splitPerfPair, convertKbitsToBits) are modelled from the spec; each
such definition is marked in its doc comment.
-/

/-- Character-level substring check: does `hay` start with `needle`?
Models the prefix test underlying Go strings.Contains. -/
def startsWithCL : List Char → List Char → Bool
  | [], _ => true
  | _ :: _, [] => false
  | a :: as, b :: bs => a = b && startsWithCL as bs

/-- Character-level substring containment; models Go strings.Contains
(for the nonempty needles "error" and "sure" used by the program). -/
def containsCL (needle : List Char) : List Char → Bool
  | [] => startsWithCL needle []
  | c :: rest => startsWithCL needle (c :: rest) || containsCL needle rest

/-- Models Go strings.Contains(s, sub) as used in iperfRun and netperfRun. -/
def goContains (s sub : String) : Bool := containsCL sub.data s.data

/-- Character-level split on a separator character; models Go
strings.Split for a one-character separator.  `splitOnChar c cs` is never
empty, and the concatenation of its parts interleaved with `c` is `cs`. -/
def splitOnChar (c : Char) : List Char → List (List Char)
  | [] => [[]]
  | a :: rest =>
    let r := splitOnChar c rest
    if a = c then [] :: r
    else
      match r with
      | h :: t => (a :: h) :: t
      | [] => [[a]]

/-- Modelled from the spec: the repository's splitPerfPair is not in the
provided source; the spec's endpoint-registry parsing rule is "split each
raw entry on `:`", so splitPerfPair is modelled as strings.Split on ":". -/
def splitPerfPair (tunnelDestPair : String) : List String :=
  (splitOnChar ':' tunnelDestPair.data).map (fun cs => String.mk cs)

/-- mapPerfDest creates a k/v pair of node address and node name
(cbandwidth.go lines 609-624).  The Go map with its single insertion is
embedded as an association list. -/
def mapPerfDest (tunnelDestPair : String) : List (String × String) :=
  match splitPerfPair tunnelDestPair with
  | a :: b :: _ => [(a, b)]
  | [a] => [(a, "")]
  | [] => []

/-- The endpoint-name defaulting done at the top of the sweep loops
(cbandwidth.go lines 361-363 and 477-479): an empty label falls back to
the address. -/
def resolveEndpoint (p : String × String) : String × String :=
  (p.1, if p.2 = "" then p.1 else p.2)

/-- Numeric value of a list of ASCII digits. -/
def digitsToNat (cs : List Char) : Nat :=
  cs.foldl (fun a c => 10 * a + (c.toNat - 48)) 0

/-- Parse a nonempty all-digit character list, rejecting anything else. -/
def digitsVal (cs : List Char) : Option Nat :=
  match cs with
  | [] => none
  | _ => if cs.all Char.isDigit then some (digitsToNat cs) else none

/-- Models Go strconv.Atoi: an optional single sign followed by one or
more ASCII digits; anything else is a parse error. -/
def goAtoi (s : String) : Option Int :=
  match s.data with
  | '-' :: rest => (digitsVal rest).map (fun n => -(n : Int))
  | '+' :: rest => (digitsVal rest).map (fun n => (n : Int))
  | cs => (digitsVal cs).map (fun n => (n : Int))

/-- Two's-complement wraparound of Go's 64-bit int arithmetic. -/
def wrap64 (n : Int) : Int := (n + 2 ^ 63) % 2 ^ 64 - 2 ^ 63

/-- Modelled from the spec: the repository's convertKbitsToBits is not in
the provided source.  Per the spec, the extracted token is parsed as an
integer (a non-numeric token yields a format error, with the Go zero value
accompanying the error) and normalized as
bitsPerSecond = kilobitsPerSecond * 1000 in (64-bit) integer arithmetic.
The result is the pair (value, formatError). -/
def convertKbitsToBits (s : String) : Int × Bool :=
  match goAtoi s with
  | some k => (wrap64 (k * 1000), false)
  | none => (0, true)

-- Basic sanity facts about the registry parser.

theorem splitOnChar_ne_nil (c : Char) (cs : List Char) : splitOnChar c cs ≠ [] := by
  induction cs with
  | nil => simp [splitOnChar]
  | cons a rest ih =>
    simp only [splitOnChar]
    by_cases h : a = c
    · simp [h]
    · simp only [h, if_false]
      cases hr : splitOnChar c rest with
      | nil => exact absurd hr ih
      | cons x xs => simp

theorem splitOnChar_of_not_mem (c : Char) (cs : List Char) (h : c ∉ cs) :
    splitOnChar c cs = [cs] := by
  induction cs with
  | nil => rfl
  | cons a rest ih =>
    have ha : a ≠ c := fun e => h (e ▸ List.mem_cons_self a rest)
    have hrest : c ∉ rest := fun e => h (List.mem_cons_of_mem a e)
    simp only [splitOnChar, ha, if_false, ih hrest]

theorem splitOnChar_append (c : Char) (a b : List Char) (h : c ∉ a) :
    splitOnChar c (a ++ c :: b) = a :: splitOnChar c b := by
  induction a with
  | nil => simp [splitOnChar]
  | cons x a' ih =>
    have hx : x ≠ c := fun e => h (e ▸ List.mem_cons_self x a')
    have ha' : c ∉ a' := fun e => h (List.mem_cons_of_mem x e)
    simp only [List.cons_append, splitOnChar, hx, if_false, List.append_eq, ih ha']

theorem data_append (s t : String) : (s ++ t).data = s.data ++ t.data := rfl

theorem mk_data (s : String) : String.mk s.data = s := rfl

/-- mapPerfDest always yields at most one endpoint record, so the Go map
it returns is a singleton and its iteration order is determined. -/
theorem mapPerfDest_length_le_one (s : String) : (mapPerfDest s).length ≤ 1 := by
  unfold mapPerfDest
  cases h : splitPerfPair s with
  | nil => simp
  | cons a t => cases t <;> simp

/-- The slice of the resolved configuration read by the sweep loops
(the global cliFlags of cbandwidth.go). -/
structure Flags where
  tsdbType : String
  downloadPfx : String
  uploadPfx : String
  testInterval : String
  testLength : String
  parallelConn : String
  perfServerPort : String
  kentikEmail : String
  kentikToken : String
deriving DecidableEq

/-- The slice of the configuration struct read by the sweep loops. -/
structure Config where
  measurementName : String
  graphiteHostPort : String
  influxURL : String
  hostname : String
  perfServers : List (List (String × String))
deriving DecidableEq

inductive Direction where
  | download
  | upload
deriving DecidableEq

/-- Observable actions of one scheduler iteration: probe subprocess
invocations, log lines, sink sends and the inter-sweep sleep. -/
inductive Event where
  | probe (addr : String) (dir : Direction)
  | logError (msg : String)
  | logInfo (msg : String)
  | graphiteSend (socket : String) (payload : String)
  | influxSend (url : String) (payload : String)
  | sleep (nanos : Int)
deriving DecidableEq

def Event.isSend : Event → Bool
  | .graphiteSend _ _ => true
  | .influxSend _ _ => true
  | _ => false

def Event.isSleep : Event → Bool
  | .sleep _ => true
  | _ => false

def Event.isLogError : Event → Bool
  | .logError _ => true
  | _ => false

/-- Graphite payload built by iperfRun and netperfRun
(fmt.Sprintf of pattern percent-s.percent-s percent-d percent-d newline,
cbandwidth.go lines 388, 427, 502). -/
def graphiteMsg (pfx label : String) (bps now : Int) : String :=
  pfx ++ "." ++ label ++ " " ++ toString bps ++ " " ++ toString now ++ "\n"

/-- Influx payload built by iperfRun for both directions
(cbandwidth.go lines 391-397 and 430-435); the field name is the literal
iperfResultsBps. -/
def influxIperfMsg (measurementName pfx label host : String) (bps : Int) : String :=
  measurementName ++ ",testType=" ++ pfx ++ ",iperfDestination=" ++ label ++
    ",iperfSource=" ++ host ++ " iperfResultsBps=" ++ toString bps

/-- Influx payload built by netperfRun (cbandwidth.go lines 505-511); the
field name is the literal iperfDownloadResultsBps. -/
def influxNetperfMsg (measurementName pfx label host : String) (bps : Int) : String :=
  measurementName ++ ",testType=" ++ pfx ++ ",iperfDestination=" ++ label ++
    ",iperfSource=" ++ host ++ " iperfDownloadResultsBps=" ++ toString bps

/-- A normalized measurement as the spec's data model describes it. -/
structure Measurement where
  endpointLabel : String
  bitsPerSecond : Int
  observedAtUnixSeconds : Int

/-- Modelled from the spec wording, for refinement comparison with the
payload builders above: the stream-sink format
"<pfx>.<label> <bitsPerSecond> <observedAtUnixSeconds>\n". -/
def specStreamPayload (pfx : String) (m : Measurement) : String :=
  pfx ++ "." ++ m.endpointLabel ++ " " ++ toString m.bitsPerSecond ++ " " ++
    toString m.observedAtUnixSeconds ++ "\n"

/-- Modelled from the spec wording, for refinement comparison with the
payload builders above: the HTTP-sink format
"<measurementName>,testType=<pfx>,iperfDestination=<label>,iperfSource=<hostname>
<fieldName>=<bitsPerSecond>", with no timestamp field. -/
def specHttpPayload (measurementName testType dest src fieldName : String)
    (bps : Int) : String :=
  measurementName ++ ",testType=" ++ testType ++ ",iperfDestination=" ++ dest ++
    ",iperfSource=" ++ src ++ " " ++ fieldName ++ "=" ++ toString bps

/-- One direction's measurement handling inside the iperfRun sweep body
(cbandwidth.go lines 373-401 for download, 412-439 for upload): marker
check on the raw output, numeric conversion, result logging, and the sink
branch.  `raw` is the trimmed combined output captured by runCmd; `now`
is the Unix timestamp taken for the send. -/
def iperfMeasure (fl : Flags) (cfg : Config) (addr name : String)
    (dir : Direction) (raw : String) (now : Int) : List Event :=
  if goContains raw "error" then
    [Event.logError ("Error testing to the target server at " ++ addr ++ ":" ++ fl.perfServerPort),
     Event.logError ("Verify iperf is running and reachable at " ++ addr ++ ":" ++ fl.perfServerPort),
     Event.logError raw]
  else
    let r := convertKbitsToBits raw
    let pfx := match dir with
      | .download => fl.downloadPfx
      | .upload => fl.uploadPfx
    let dirWord := match dir with
      | .download => "Download"
      | .upload => "Upload"
    (if r.2 then
      [Event.logError "no valid integer returned from the iperf test, please run with --debug for details"]
     else []) ++
    [Event.logInfo (dirWord ++ " results for endpoint " ++ addr ++ " [" ++ name ++ "] -> " ++ toString r.1 ++ " bps")] ++
    (if fl.tsdbType ≠ "influx" then
      [Event.graphiteSend cfg.graphiteHostPort (graphiteMsg pfx name r.1 now)]
     else
      let msg := influxIperfMsg cfg.measurementName pfx name cfg.hostname r.1
      [Event.logError ("url: " ++ cfg.influxURL ++ " : payload: " ++ msg),
       Event.influxSend cfg.influxURL msg])

/-- The netperfRun sweep body for one endpoint (cbandwidth.go lines
489-515): marker check on the word "sure", numeric conversion, result
logging, and the sink branch (download only). -/
def netperfMeasure (fl : Flags) (cfg : Config) (addr name : String)
    (raw : String) (now : Int) : List Event :=
  if goContains raw "sure" then
    [Event.logError ("Error testing to the target server at " ++ addr ++ ":" ++ fl.perfServerPort),
     Event.logError ("Verify netserver is running and reachable at " ++ addr ++ ":" ++ fl.perfServerPort)]
  else
    let r := convertKbitsToBits raw
    (if r.2 then
      [Event.logError "no valid integer returned from the netperf test, please run with --debug for details"]
     else []) ++
    [Event.logInfo ("Download results for endpoint " ++ addr ++ " [" ++ name ++ "] -> " ++ toString r.1 ++ " bps")] ++
    (if fl.tsdbType ≠ "influx" then
      [Event.graphiteSend cfg.graphiteHostPort (graphiteMsg fl.downloadPfx name r.1 now)]
     else
      let msg := influxNetperfMsg cfg.measurementName fl.downloadPfx name cfg.hostname r.1
      [Event.logError ("url: " ++ cfg.influxURL ++ " : payload: " ++ msg),
       Event.influxSend cfg.influxURL msg])

/-- One endpoint of an iperfRun sweep (cbandwidth.go lines 360-440): the
label defaults to the address, then the download probe and its handling,
then the upload probe and its handling.  `probeOut` gives the raw trimmed
output captured for each probe invocation. -/
def iperfEndpoint (fl : Flags) (cfg : Config)
    (probeOut : String → Direction → String) (addr name0 : String)
    (now : Int) : List Event :=
  let name := if name0 = "" then addr else name0
  (Event.probe addr Direction.download ::
    iperfMeasure fl cfg addr name Direction.download (probeOut addr Direction.download) now) ++
  (Event.probe addr Direction.upload ::
    iperfMeasure fl cfg addr name Direction.upload (probeOut addr Direction.upload) now)

/-- One full iperfRun sweep (cbandwidth.go lines 359-441): the registry is
traversed in order, each entry being the association list embedding the Go
map (a singleton for every entry built by mapPerfDest). -/
def iperfSweep (fl : Flags) (cfg : Config)
    (probeOut : String → Direction → String) (now : Int) : List Event :=
  cfg.perfServers.flatMap fun v =>
    v.flatMap fun p => iperfEndpoint fl cfg probeOut p.1 p.2 now

/-- Longest all-digit front of a character list, with the remainder. -/
def takeDigits : List Char → List Char × List Char
  | [] => ([], [])
  | c :: rest =>
    if c.isDigit then
      let (d, r) := takeDigits rest
      (c :: d, r)
    else ([], c :: rest)

/-- Longest front of characters that are neither digits nor a dot, with
the remainder; this is how Go's duration parser isolates a unit suffix. -/
def takeUnit : List Char → List Char × List Char
  | [] => ([], [])
  | c :: rest =>
    if c.isDigit || c = '.' then ([], c :: rest)
    else
      let (u, r) := takeUnit rest
      (c :: u, r)

/-- The unit table of Go time.ParseDuration, in nanoseconds. -/
def lookupUnit (u : List Char) : Option Nat :=
  if u = "ns".data then some 1
  else if u = "us".data then some 1000
  else if u = "µs".data then some 1000
  else if u = "μs".data then some 1000
  else if u = "ms".data then some 1000000
  else if u = "s".data then some 1000000000
  else if u = "m".data then some 60000000000
  else if u = "h".data then some 3600000000000
  else none

/-- One group body of Go time.ParseDuration's loop, after the digits have
been consumed: isolate and look up the unit, reject on the overflow check
`v > 1<<63/unit`, apply the unit, add the fractional contribution (with
its `v > 1<<63` check when fraction digits are present), and accumulate
into the running uint64 total `d` (wrapping modulo 2^64 as uint64
addition does) with the per-iteration `d > 1<<63` check.  Returns the new
accumulator, or `none` on any of the rejections. -/
def parseDurGroup (intD fracD rest : List Char) (d : Nat) : Option Nat :=
  let p3 := takeUnit rest
  if p3.1 = [] then none
  else
    match lookupUnit p3.1 with
    | none => none
    | some u =>
      let v := digitsToNat intD
      if v > 2 ^ 63 / u then none
      else
        let v2 := v * u + digitsToNat fracD * u / 10 ^ fracD.length
        if digitsToNat fracD > 0 ∧ v2 > 2 ^ 63 then none
        else
          let d2 := (d + v2) % 2 ^ 64
          if d2 > 2 ^ 63 then none else some d2

/-- The group loop of Go time.ParseDuration, threading the uint64
accumulator `d`: each group is an integer part, an optional fractional
part (at least one of the two must hold a digit), and a mandatory known
unit.  The integer part is rejected when its value exceeds 2^63 — the
equivalent of Go leadingInt's incremental overflow checks, which fail
exactly when the full digit run's value exceeds 1<<63.  The fuel argument
(instantiated with the input length) bounds the recursion; each group
consumes at least one character.  The fractional contribution is computed
in exact integer arithmetic; Go uses float64 there, which agrees on every
input whose fraction divides the unit exactly. -/
def parseDurChunks : Nat → List Char → Nat → Option Nat
  | _, [], d => some d
  | 0, _ :: _, _ => none
  | Nat.succ fuel, c :: cs, d =>
    let p1 := takeDigits (c :: cs)
    if digitsToNat p1.1 > 2 ^ 63 then none
    else if p1.2.head? = some '.' then
      let p2 := takeDigits p1.2.tail
      if p1.1.isEmpty && p2.1.isEmpty then none
      else
        match parseDurGroup p1.1 p2.1 p2.2 d with
        | none => none
        | some d2 => parseDurChunks fuel (takeUnit p2.2).2 d2
    else
      if p1.1.isEmpty then none
      else
        match parseDurGroup p1.1 [] p1.2 d with
        | none => none
        | some d2 => parseDurChunks fuel (takeUnit p1.2).2 d2

/-- Models Go time.ParseDuration on a character list: an optional sign,
the special case "0", then one or more number-with-unit groups; the
result is in nanoseconds and any malformed input is a parse error,
including the int64 overflow rejections: the loop (parseDurChunks /
parseDurGroup) keeps the uint64 accumulator within 1<<63, and a
non-negated result above 1<<63 - 1 is a final overflow error. -/
def parseGoDurationCL (input : List Char) : Option Int :=
  match input with
  | [] => none
  | c :: rest =>
    let neg := c = '-'
    let cs := if c = '-' || c = '+' then rest else c :: rest
    if cs = ['0'] then some 0
    else if cs = [] then none
    else
      match parseDurChunks cs.length cs 0 with
      | none => none
      | some d =>
        if neg then some (-(d : Int))
        else if d > 2 ^ 63 - 1 then none
        else some (d : Int)

/-- Models Go time.ParseDuration. -/
def parseGoDuration (s : String) : Option Int :=
  parseGoDurationCL s.data

/-- The inter-sweep sleep of iperfRun and netperfRun (cbandwidth.go lines
442-444 and 519-521): the configured interval string with "s" appended is
parsed by time.ParseDuration, the parse error is discarded, and the Go
zero duration is slept when parsing failed. -/
def sleepNanos (interval : String) : Int :=
  (parseGoDuration (interval ++ "s")).getD 0

/-- Modelled from the claim's wording, for refutation only: a configured
test interval that is "a valid number of seconds", i.e. a plain decimal
numeral (digits with an optional fractional point). -/
def isValidSecondsString (s : String) : Bool :=
  !s.data.isEmpty && s.data.all (fun c => c.isDigit || c = '.') &&
    s.data.any Char.isDigit

/-- One iteration of the infinite iperfRun loop: a full sweep, then the
sleep with the re-parsed interval. -/
def iperfIteration (fl : Flags) (cfg : Config)
    (probeOut : String → Direction → String) (now : Int) : List Event :=
  iperfSweep fl cfg probeOut now ++ [Event.sleep (sleepNanos fl.testInterval)]

/-- One full netperfRun sweep (cbandwidth.go lines 475-517): registry
order, one download-only measurement per endpoint. -/
def netperfSweep (fl : Flags) (cfg : Config) (probeOut : String → String)
    (now : Int) : List Event :=
  cfg.perfServers.flatMap fun v =>
    v.flatMap fun p =>
      Event.probe p.1 Direction.download ::
        netperfMeasure fl cfg p.1 (if p.2 = "" then p.1 else p.2) (probeOut p.1) now

/-- One iteration of the infinite netperfRun loop. -/
def netperfIteration (fl : Flags) (cfg : Config) (probeOut : String → String)
    (now : Int) : List Event :=
  netperfSweep fl cfg probeOut now ++ [Event.sleep (sleepNanos fl.testInterval)]

/-- The probe invocations of a trace, in order. -/
def probes (es : List Event) : List (String × Direction) :=
  es.filterMap fun e =>
    match e with
    | .probe a d => some (a, d)
    | _ => none

inductive GraphiteOutcome where
  | dialError
  | writeError
  | sent
deriving DecidableEq

/-- sendGraphite (cbandwidth.go lines 541-556): dial a fresh connection;
a dial failure is logged and the function returns; otherwise the
connection is closed by defer on every path and a write failure is only
logged.  No failure escapes the dispatcher. -/
def sendGraphite (dialOk writeOk : Bool) : GraphiteOutcome :=
  if !dialOk then GraphiteOutcome.dialError
  else if !writeOk then GraphiteOutcome.writeError
  else GraphiteOutcome.sent

structure HttpResponse where
  status : Nat
  body : String
deriving DecidableEq

/-- What a call of sendInflux does: whether it panics, the error value it
returns (rendered as its message), and whether the response body was
fully read before returning. -/
structure InfluxResult where
  panicked : Bool
  returnedError : Option String
  bodyDrained : Bool
deriving DecidableEq

/-- sendInflux (cbandwidth.go lines 559-587).  `reqOk` abstracts whether
http.NewRequest succeeds; `resp` is the transport outcome of client.Do,
with `none` standing for a transport error, in which case Go's resp is
nil.  Control flow of the source: a request-build failure logs and
returns the error; a transport failure is logged but not returned from,
and the deferred resp.Body.Close() then dereferences the nil response and
panics; otherwise io.ReadAll drains the body before the status check, and
any status other than 200 returns the error
"unexpected status code: <code>". -/
def sendInflux (reqOk : Bool) (resp : Option HttpResponse) : InfluxResult :=
  if !reqOk then
    { panicked := false, returnedError := some "request build error", bodyDrained := false }
  else
    match resp with
    | none => { panicked := true, returnedError := none, bodyDrained := false }
    | some r =>
      if r.status ≠ 200 then
        { panicked := false,
          returnedError := some ("unexpected status code: " ++ toString r.status),
          bodyDrained := true }
      else
        { panicked := false, returnedError := none, bodyDrained := true }

/-- A concrete flag value for closed evaluations: the graphite sink is
selected (tsdbType is not "influx") with the default metric prefixes. -/
def testFlags : Flags :=
  { tsdbType := ""
    downloadPfx := "bandwidth.download"
    uploadPfx := "bandwidth.upload"
    testInterval := "300"
    testLength := "5"
    parallelConn := "1"
    perfServerPort := "5201"
    kentikEmail := ""
    kentikToken := "" }

/-- A concrete configuration value for closed evaluations. -/
def testConfig : Config :=
  { measurementName := "cloudBandwidth"
    graphiteHostPort := "192.0.2.1:2003"
    influxURL := ""
    hostname := "host0"
    perfServers := [[("10.0.0.5", "west")], [("10.0.0.6", "")]] }

-- Helper lemmas.

theorem string_data_ext {s t : String} (h : s.data = t.data) : s = t :=
  congrArg String.mk h

theorem probes_cons_probe (a : String) (d : Direction) (l : List Event) :
    probes (Event.probe a d :: l) = (a, d) :: probes l := by
  simp [probes]

theorem probes_append (a b : List Event) :
    probes (a ++ b) = probes a ++ probes b := by
  simp [probes, List.filterMap_append]

theorem probes_iperfMeasure (fl : Flags) (cfg : Config) (addr name : String)
    (dir : Direction) (raw : String) (now : Int) :
    probes (iperfMeasure fl cfg addr name dir raw now) = [] := by
  unfold iperfMeasure
  split_ifs <;> simp [probes]

theorem probes_iperfEndpoint (fl : Flags) (cfg : Config)
    (po : String → Direction → String) (addr name0 : String) (now : Int) :
    probes (iperfEndpoint fl cfg po addr name0 now) =
      [(addr, Direction.download), (addr, Direction.upload)] := by
  unfold iperfEndpoint
  simp only [probes_append, probes_cons_probe, probes_iperfMeasure]
  rfl

theorem probes_entry (fl : Flags) (cfg : Config)
    (po : String → Direction → String) (now : Int)
    (v : List (String × String)) :
    probes (v.flatMap fun p => iperfEndpoint fl cfg po p.1 p.2 now) =
      v.flatMap fun p => [(p.1, Direction.download), (p.1, Direction.upload)] := by
  induction v with
  | nil => rfl
  | cons p rest ih =>
    simp only [List.flatMap_cons, probes_append, ih, probes_iperfEndpoint]

theorem probes_iperfSweep (fl : Flags) (cfg : Config)
    (po : String → Direction → String) (now : Int) :
    probes (iperfSweep fl cfg po now) =
      cfg.perfServers.flatMap fun v =>
        v.flatMap fun p => [(p.1, Direction.download), (p.1, Direction.upload)] := by
  unfold iperfSweep
  induction cfg.perfServers with
  | nil => rfl
  | cons v rest ih =>
    simp only [List.flatMap_cons, probes_append, ih, probes_entry]

theorem noSleep_iperfMeasure (fl : Flags) (cfg : Config) (addr name : String)
    (dir : Direction) (raw : String) (now : Int) :
    (iperfMeasure fl cfg addr name dir raw now).all (fun e => !e.isSleep) = true := by
  unfold iperfMeasure
  split_ifs <;> simp [Event.isSleep]

theorem noSleep_iperfSweep (fl : Flags) (cfg : Config)
    (po : String → Direction → String) (now : Int) :
    (iperfSweep fl cfg po now).all (fun e => !e.isSleep) = true := by
  rw [List.all_eq_true]
  intro e he
  unfold iperfSweep at he
  simp only [List.mem_flatMap] at he
  obtain ⟨v, _, p, _, hep⟩ := he
  unfold iperfEndpoint at hep
  simp only [List.mem_append, List.mem_cons] at hep
  rcases hep with (h | h) | (h | h)
  · subst h; rfl
  · exact List.all_eq_true.mp (noSleep_iperfMeasure fl cfg p.1 _ Direction.download _ now) e h
  · subst h; rfl
  · exact List.all_eq_true.mp (noSleep_iperfMeasure fl cfg p.1 _ Direction.upload _ now) e h

theorem wrap64_eq_of_bounds (n : Int) (h1 : -(2 ^ 63) ≤ n) (h2 : n < 2 ^ 63) :
    wrap64 n = n := by
  unfold wrap64
  have h3 : (0 : Int) ≤ n + 2 ^ 63 := by omega
  have h4 : n + 2 ^ 63 < 2 ^ 64 := by
    have : (2 : Int) ^ 64 = 2 ^ 63 + 2 ^ 63 := by norm_num
    omega
  rw [Int.emod_eq_of_lt h3 h4]
  omega

theorem takeDigits_all (ds : List Char) (hd : ∀ c ∈ ds, c.isDigit = true)
    (r : List Char) (hr : ∀ c, r.head? = some c → c.isDigit = false) :
    takeDigits (ds ++ r) = (ds, r) := by
  induction ds with
  | nil =>
    cases r with
    | nil => rfl
    | cons c t =>
      have := hr c rfl
      simp [takeDigits, this]
  | cons d ds' ih =>
    have hdd : d.isDigit = true := hd d (List.mem_cons_self d ds')
    have ih' := ih fun c hc => hd c (List.mem_cons_of_mem d hc)
    simp [takeDigits, hdd, ih']

theorem parseDurChunks_nil (fuel d : Nat) : parseDurChunks fuel [] d = some d := by
  cases fuel <;> rfl

theorem pow63_val : (2 : Nat) ^ 63 = 9223372036854775808 := by norm_num

theorem pow63_div_giga : (2 : Nat) ^ 63 / 1000000000 = 9223372036 := by norm_num

theorem parseDurGroup_s_ok (intD : List Char)
    (hv : digitsToNat intD ≤ 9223372036) :
    parseDurGroup intD [] ['s'] 0 = some (digitsToNat intD * 1000000000) := by
  have hturn : takeUnit ['s'] = (['s'], []) := rfl
  have hunit : lookupUnit ['s'] = some 1000000000 := by decide
  unfold parseDurGroup
  simp only [hturn, hunit]
  rw [if_neg (by decide : ¬((['s'] : List Char) = []))]
  rw [if_neg (by rw [pow63_div_giga]; omega :
    ¬(digitsToNat intD > 2 ^ 63 / 1000000000))]
  have hz : digitsToNat ([] : List Char) = 0 := rfl
  simp only [hz, List.length_nil, pow_zero, Nat.zero_mul, Nat.div_one,
    add_zero, zero_add]
  rw [if_neg (by omega : ¬(0 > 0 ∧ digitsToNat intD * 1000000000 > 2 ^ 63))]
  have hlt : digitsToNat intD * 1000000000 < 2 ^ 64 := by
    have : (2 : Nat) ^ 64 = 18446744073709551616 := by norm_num
    omega
  rw [Nat.mod_eq_of_lt hlt]
  rw [if_neg (by rw [pow63_val]; omega :
    ¬(digitsToNat intD * 1000000000 > 2 ^ 63))]

theorem parseDurGroup_s_overflow (intD : List Char) (d : Nat)
    (hv : digitsToNat intD > 9223372036) :
    parseDurGroup intD [] ['s'] d = none := by
  have hturn : takeUnit ['s'] = (['s'], []) := rfl
  have hunit : lookupUnit ['s'] = some 1000000000 := by decide
  unfold parseDurGroup
  simp only [hturn, hunit]
  rw [if_neg (by decide : ¬((['s'] : List Char) = []))]
  rw [if_pos (by rw [pow63_div_giga]; omega :
    digitsToNat intD > 2 ^ 63 / 1000000000)]

theorem parseDurChunks_digits_ok (ds : List Char) (hne : ds ≠ [])
    (hd : ∀ c ∈ ds, c.isDigit = true) (fuel : Nat)
    (hb : digitsToNat ds ≤ 9223372036) :
    parseDurChunks (fuel + 1) (ds ++ ['s']) 0 =
      some (digitsToNat ds * 1000000000) := by
  cases ds with
  | nil => exact absurd rfl hne
  | cons d ds' =>
    have htake : takeDigits ((d :: ds') ++ ['s']) = (d :: ds', ['s']) :=
      takeDigits_all (d :: ds') hd ['s'] (by intro c hc; cases hc; decide)
    have hturn : takeUnit ['s'] = (['s'], []) := rfl
    simp only [List.cons_append] at htake ⊢
    unfold parseDurChunks
    simp only [htake, hturn]
    rw [if_neg (by rw [pow63_val]; omega :
      ¬(digitsToNat (d :: ds') > 2 ^ 63))]
    rw [if_neg (by decide : ¬((['s'] : List Char).head? = some '.'))]
    rw [if_neg (by simp : ¬((d :: ds').isEmpty = true))]
    rw [parseDurGroup_s_ok (d :: ds') hb]
    exact parseDurChunks_nil fuel _

theorem parseDurChunks_digits_overflow (ds : List Char) (hne : ds ≠ [])
    (hd : ∀ c ∈ ds, c.isDigit = true) (fuel : Nat)
    (hb : digitsToNat ds > 9223372036) :
    parseDurChunks (fuel + 1) (ds ++ ['s']) 0 = none := by
  cases ds with
  | nil => exact absurd rfl hne
  | cons d ds' =>
    have htake : takeDigits ((d :: ds') ++ ['s']) = (d :: ds', ['s']) :=
      takeDigits_all (d :: ds') hd ['s'] (by intro c hc; cases hc; decide)
    have hturn : takeUnit ['s'] = (['s'], []) := rfl
    simp only [List.cons_append] at htake ⊢
    unfold parseDurChunks
    simp only [htake, hturn]
    by_cases h63 : digitsToNat (d :: ds') > 2 ^ 63
    · rw [if_pos h63]
    · rw [if_neg h63]
      rw [if_neg (by decide : ¬((['s'] : List Char).head? = some '.'))]
      rw [if_neg (by simp : ¬((d :: ds').isEmpty = true))]
      rw [parseDurGroup_s_overflow (d :: ds') 0 hb]

-- Claim theorems.

/-- Claim C1 (code bug): the claim says a raw probe output whose extracted
token is not a valid integer yields a format error and the measurement is
skipped, with no sink payload built or sent and no zero-valued defaulted
measurement dispatched.  The code evaluated at the failing input "abc"
logs the format error but then still builds and sends a graphite payload
carrying the zero-defaulted value 0 bps. -/
theorem c1_format_error_measurement_still_sent :
    convertKbitsToBits "abc" = (0, true) ∧
    iperfMeasure testFlags testConfig "10.0.0.5" "west" Direction.download "abc" 1700000000 =
      [Event.logError "no valid integer returned from the iperf test, please run with --debug for details",
       Event.logInfo "Download results for endpoint 10.0.0.5 [west] -> 0 bps",
       Event.graphiteSend "192.0.2.1:2003" "bandwidth.download.west 0 1700000000\n"] ∧
    (iperfMeasure testFlags testConfig "10.0.0.5" "west" Direction.download "abc" 1700000000).any
      Event.isSend = true := by
  refine ⟨by decide, by decide, by decide⟩

/-- Claim C2 (code bug): the claim says every sink failure is logged and
the dispatcher returns without terminating the process, in particular that
sendInflux returns normally when the HTTP POST cannot be delivered.  The
code evaluated at a transport failure (client.Do returns an error, so the
response is nil) panics on the deferred nil-response dereference; the
other dispatcher failure paths do return normally. -/
theorem c2_influx_transport_failure_panics :
    sendInflux true none =
      { panicked := true, returnedError := none, bodyDrained := false } ∧
    sendGraphite false true = GraphiteOutcome.dialError ∧
    sendGraphite true false = GraphiteOutcome.writeError ∧
    (sendInflux false none).panicked = false := by
  refine ⟨by decide, by decide, by decide, by decide⟩

/-- Claim C3: raw probe output containing the tool's failure marker
("error" for iperf, "sure" for netperf) produces only error log events —
numeric extraction is skipped and no sink send of any kind is attempted —
and the sweep's probe sequence is independent of any probe output, so the
sweep proceeds to the remaining endpoints and directions. -/
theorem c3_failure_marker_skips_send (fl : Flags) (cfg : Config)
    (addr name : String) (dir : Direction) (raw rawN : String) (now : Int) :
    (goContains raw "error" = true →
      (iperfMeasure fl cfg addr name dir raw now).all Event.isLogError = true ∧
      iperfMeasure fl cfg addr name dir raw now ≠ []) ∧
    (goContains rawN "sure" = true →
      (netperfMeasure fl cfg addr name rawN now).all Event.isLogError = true ∧
      netperfMeasure fl cfg addr name rawN now ≠ []) ∧
    (∀ po po' : String → Direction → String,
      probes (iperfSweep fl cfg po now) = probes (iperfSweep fl cfg po' now)) := by
  refine ⟨?_, ?_, ?_⟩
  · intro h
    unfold iperfMeasure
    rw [if_pos h]
    exact ⟨rfl, by simp⟩
  · intro h
    unfold netperfMeasure
    rw [if_pos h]
    exact ⟨rfl, by simp⟩
  · intro po po'
    rw [probes_iperfSweep, probes_iperfSweep]

/-- Claim C3 witness: a concrete marker-bearing output with
numeric-looking text elsewhere yields only error logs. -/
theorem c3_failure_marker_skips_send_witness :
    goContains "error: connect refused 999" "error" = true ∧
    (iperfMeasure testFlags testConfig "10.0.0.5" "west" Direction.download
      "error: connect refused 999" 0).all Event.isLogError = true :=
  ⟨by decide,
   ((c3_failure_marker_skips_send testFlags testConfig "10.0.0.5" "west"
      Direction.download "error: connect refused 999" "sure" 0).1 (by decide)).1⟩

/-- Claim C4: the metric record builders are pure functions producing
exactly the spec's payloads: the stream-sink line with the
direction-chosen metric path, and the HTTP-sink line with no timestamp
field, whose field name is iperfResultsBps for both iperf directions and
iperfDownloadResultsBps for the netperf download-only path. -/
theorem c4_payload_builder_formats (pfx mName label host : String)
    (bps now : Int) :
    graphiteMsg pfx label bps now =
      specStreamPayload pfx ⟨label, bps, now⟩ ∧
    influxIperfMsg mName pfx label host bps =
      specHttpPayload mName pfx label host "iperfResultsBps" bps ∧
    influxNetperfMsg mName pfx label host bps =
      specHttpPayload mName pfx label host "iperfDownloadResultsBps" bps := by
  refine ⟨rfl, ?_, ?_⟩ <;>
    (apply string_data_ext
     simp only [influxIperfMsg, influxNetperfMsg, specHttpPayload, data_append,
       List.append_assoc]
     rfl)

/-- Claim C5: for every token parsing as an integer k in 32-bit range,
unit normalization returns exactly k * 1000 bits per second with no
wraparound or rounding loss in the 64-bit integer arithmetic. -/
theorem c5_normalization_exact (s : String) (k : Int)
    (hp : goAtoi s = some k) (h1 : -(2 ^ 31) ≤ k) (h2 : k ≤ 2 ^ 31) :
    convertKbitsToBits s = (k * 1000, false) := by
  unfold convertKbitsToBits
  rw [hp]
  have l1 : (-(2 ^ 31) : Int) * 1000 ≤ k * 1000 :=
    mul_le_mul_of_nonneg_right h1 (by norm_num)
  have l2 : k * 1000 ≤ ((2 : Int) ^ 31) * 1000 :=
    mul_le_mul_of_nonneg_right h2 (by norm_num)
  have hb : wrap64 (k * 1000) = k * 1000 := by
    apply wrap64_eq_of_bounds
    · calc (-(2 ^ 63) : Int) ≤ (-(2 ^ 31) : Int) * 1000 := by norm_num
        _ ≤ k * 1000 := l1
    · calc k * 1000 ≤ ((2 : Int) ^ 31) * 1000 := l2
        _ < 2 ^ 63 := by norm_num
  show (wrap64 (k * 1000), false) = (k * 1000, false)
  rw [hb]

/-- Claim C5 witness: the spec's concrete scenario, token "12345". -/
theorem c5_normalization_exact_witness :
    goAtoi "12345" = some 12345 ∧
    convertKbitsToBits "12345" = (12345 * 1000, false) :=
  ⟨by decide, c5_normalization_exact "12345" 12345 (by decide) (by decide) (by decide)⟩

/-- Claim C6: an endpoint specification without a ":" separator resolves
to an endpoint whose label equals its address, and a specification
"addr:label" resolves to address = addr and label = label. -/
theorem c6_endpoint_spec_resolution (addr label : String)
    (ha : ':' ∉ addr.data) (hl : ':' ∉ label.data) (hne : label ≠ "") :
    (mapPerfDest addr).map resolveEndpoint = [(addr, addr)] ∧
    (mapPerfDest (addr ++ ":" ++ label)).map resolveEndpoint = [(addr, label)] := by
  constructor
  · unfold mapPerfDest splitPerfPair
    rw [splitOnChar_of_not_mem ':' addr.data ha]
    simp [resolveEndpoint]
  · have hdata : (addr ++ ":" ++ label).data = addr.data ++ ':' :: label.data := by
      simp [data_append, (show (":" : String).data = [':'] from rfl)]
    unfold mapPerfDest splitPerfPair
    rw [hdata, splitOnChar_append ':' addr.data label.data ha,
      splitOnChar_of_not_mem ':' label.data hl]
    simp [resolveEndpoint, hne]

/-- Claim C6 witness: the spec's concrete scenarios, endpoint specs
"10.0.0.5" and "10.0.0.5:west". -/
theorem c6_endpoint_spec_resolution_witness :
    (mapPerfDest "10.0.0.5").map resolveEndpoint = [("10.0.0.5", "10.0.0.5")] ∧
    (mapPerfDest ("10.0.0.5" ++ ":" ++ "west")).map resolveEndpoint =
      [("10.0.0.5", "west")] :=
  c6_endpoint_spec_resolution "10.0.0.5" "west" (by decide) (by decide) (by decide)

/-- Claim C7 counterexample: the claim says an entry splitting into more
than two tokens, or one with an empty address, is rejected as a
configuration error and never silently truncated nor accepted.  The code
truncates "a:b:c" to address "a" / label "b" and accepts ":west" with an
empty address; mapPerfDest has no error path at all. -/
theorem c7_rejection_counterexample :
    mapPerfDest "a:b:c" = [("a", "b")] ∧
    mapPerfDest ":west" = [("", "west")] := by
  refine ⟨by decide, by decide⟩

/-- Claim C7 amended: an entry splitting into more than two tokens is
silently truncated to its first two tokens (address = first token,
label = second token, remaining tokens discarded), and an entry with an
empty address token is accepted with address = "". -/
theorem c7_truncation_amended (a b c l : String)
    (ha : ':' ∉ a.data) (hb : ':' ∉ b.data) (hl : ':' ∉ l.data) :
    mapPerfDest (a ++ ":" ++ b ++ ":" ++ c) = [(a, b)] ∧
    mapPerfDest (":" ++ l) = [("", l)] := by
  constructor
  · have hdata : (a ++ ":" ++ b ++ ":" ++ c).data =
        a.data ++ ':' :: (b.data ++ ':' :: c.data) := by
      simp [data_append, (show (":" : String).data = [':'] from rfl)]
    unfold mapPerfDest splitPerfPair
    rw [hdata, splitOnChar_append ':' a.data _ ha, splitOnChar_append ':' b.data _ hb]
    rfl
  · have hdata : (":" ++ l).data = ':' :: l.data := by
      simp [data_append, (show (":" : String).data = [':'] from rfl)]
    unfold mapPerfDest splitPerfPair
    rw [hdata]
    show (match (([] :: splitOnChar ':' l.data).map (fun cs => String.mk cs)) with
      | a :: b :: _ => [(a, b)]
      | [a] => [(a, "")]
      | [] => ([] : List (String × String))) = [("", l)]
    rw [splitOnChar_of_not_mem ':' l.data hl]
    rfl

/-- Claim C7 amended witness: concrete three-token and empty-address
entries. -/
theorem c7_truncation_amended_witness :
    mapPerfDest ("a" ++ ":" ++ "b" ++ ":" ++ "c") = [("a", "b")] ∧
    mapPerfDest (":" ++ "west") = [("", "west")] :=
  c7_truncation_amended "a" "b" "c" "west" (by decide) (by decide) (by decide)

/-- Claim C8: sendInflux treats HTTP 200 as the only success: any other
status yields the returned error "unexpected status code: <code>", and on
every path with a response the body is fully drained before returning. -/
theorem c8_influx_status_contract (r : HttpResponse) :
    (sendInflux true (some r)).bodyDrained = true ∧
    (sendInflux true (some r)).panicked = false ∧
    (r.status ≠ 200 →
      (sendInflux true (some r)).returnedError =
        some ("unexpected status code: " ++ toString r.status)) ∧
    (r.status = 200 → (sendInflux true (some r)).returnedError = none) := by
  unfold sendInflux
  by_cases h : r.status = 200 <;> simp [h]

/-- Claim C8 witness: the spec's concrete scenario, a 500 response (and a
non-200 2xx response, 204, also treated as failure). -/
theorem c8_influx_status_contract_witness :
    ((500 : Nat) ≠ 200) ∧
    (sendInflux true (some ⟨500, "oops"⟩)).returnedError =
      some ("unexpected status code: " ++ toString (500 : Nat)) ∧
    (sendInflux true (some ⟨500, "oops"⟩)).bodyDrained = true ∧
    (sendInflux true (some ⟨204, ""⟩)).returnedError =
      some ("unexpected status code: " ++ toString (204 : Nat)) :=
  ⟨by decide,
   (c8_influx_status_contract ⟨500, "oops"⟩).2.2.1 (by decide),
   (c8_influx_status_contract ⟨500, "oops"⟩).1,
   (c8_influx_status_contract ⟨204, ""⟩).2.2.1 (by decide)⟩

/-- Claim C9: within one scheduler iteration the probe sequence visits the
endpoints in registry order with each endpoint's download probed before
its upload, each endpoint/direction pair exactly once, and the iteration
is the sweep followed by the sleep, with no sleep inside the sweep. -/
theorem c9_sweep_order (fl : Flags) (cfg : Config)
    (po : String → Direction → String) (now : Int) :
    probes (iperfIteration fl cfg po now) =
      (cfg.perfServers.flatMap fun v => v.flatMap fun p =>
        [(p.1, Direction.download), (p.1, Direction.upload)]) ∧
    iperfIteration fl cfg po now =
      iperfSweep fl cfg po now ++ [Event.sleep (sleepNanos fl.testInterval)] ∧
    (iperfSweep fl cfg po now).all (fun e => !e.isSleep) = true := by
  refine ⟨?_, rfl, noSleep_iperfSweep fl cfg po now⟩
  unfold iperfIteration
  rw [probes_append, probes_iperfSweep]
  simp [probes]

theorem parseGoDurationCL_cons (c : Char) (rest : List Char) :
    parseGoDurationCL (c :: rest) =
      (let neg := c = '-'
       let cs := if c = '-' || c = '+' then rest else c :: rest
       if cs = ['0'] then some 0
       else if cs = [] then none
       else
         match parseDurChunks cs.length cs 0 with
         | none => none
         | some d =>
           if neg then some (-(d : Int))
           else if d > 2 ^ 63 - 1 then none
           else some (d : Int)) := rfl

/-- Claim C10 counterexample: the claim says that whenever the configured
test interval is not a valid number of seconds the sleep duration is zero
and the next sweep begins immediately.  The interval "2m" is not a number
of seconds, yet appending "s" forms "2ms", which time.ParseDuration
accepts as two milliseconds, so the sleep is 2000000 ns, not zero. -/
theorem c10_busy_loop_counterexample :
    isValidSecondsString "2m" = false ∧
    sleepNanos "2m" = 2000000 ∧
    sleepNanos "2m" ≠ 0 := by
  refine ⟨by decide, by decide, by decide⟩

/-- Claim C10 amended: after every sweep the scheduler re-parses the
interval string with "s" appended, discarding the parse error; whenever
that appended string is not a valid Go duration the sleep is zero and the
next sweep begins immediately.  A plain all-digit interval of n seconds
with n at most 9223372036 (= (1<<63) / 10^9, Go's overflow threshold for
the seconds unit) sleeps exactly n seconds, and an all-digit interval
beyond that threshold fails ParseDuration's int64 overflow check and
sleeps zero.  (An interval that is not a plain number can still produce a
nonzero sleep when appending "s" forms a valid duration, e.g.
"2m" → "2ms".) -/
theorem c10_sleep_amended (s : String) :
    (parseGoDuration (s ++ "s") = none → sleepNanos s = 0) ∧
    (s.data ≠ [] → (∀ c ∈ s.data, c.isDigit = true) →
      digitsToNat s.data ≤ 9223372036 →
      sleepNanos s = (digitsToNat s.data : Int) * 1000000000) ∧
    (s.data ≠ [] → (∀ c ∈ s.data, c.isDigit = true) →
      digitsToNat s.data > 9223372036 →
      sleepNanos s = 0) := by
  have hdata : (s ++ "s").data = s.data ++ ['s'] := by
    simp [data_append, (show ("s" : String).data = ['s'] from rfl)]
  refine ⟨?_, ?_, ?_⟩
  · intro h
    unfold sleepNanos
    rw [h]
    rfl
  · intro hne hd hb
    unfold sleepNanos parseGoDuration
    rw [hdata]
    cases hsd : s.data with
    | nil => exact absurd hsd hne
    | cons d ds' =>
      rw [hsd] at hd hb
      have hdig : d.isDigit = true := hd d (List.mem_cons_self d ds')
      have hm : d ≠ '-' := by
        intro e; rw [e] at hdig; exact absurd hdig (by decide)
      have hp : d ≠ '+' := by
        intro e; rw [e] at hdig; exact absurd hdig (by decide)
      simp only [List.cons_append, parseGoDurationCL_cons]
      simp only [hm, hp]
      have hch := parseDurChunks_digits_ok (d :: ds') (by simp) hd (ds'.length + 1) hb
      simp only [List.cons_append] at hch
      have hlen : (d :: (ds' ++ ['s'])).length = ds'.length + 1 + 1 := by simp
      have hfin : ¬(9223372036854775807 < digitsToNat (d :: ds') * 1000000000) := by
        omega
      simp [hlen, hch, hfin]
  · intro hne hd hb
    unfold sleepNanos parseGoDuration
    rw [hdata]
    cases hsd : s.data with
    | nil => exact absurd hsd hne
    | cons d ds' =>
      rw [hsd] at hd hb
      have hdig : d.isDigit = true := hd d (List.mem_cons_self d ds')
      have hm : d ≠ '-' := by
        intro e; rw [e] at hdig; exact absurd hdig (by decide)
      have hp : d ≠ '+' := by
        intro e; rw [e] at hdig; exact absurd hdig (by decide)
      simp only [List.cons_append, parseGoDurationCL_cons]
      simp only [hm, hp]
      have hch := parseDurChunks_digits_overflow (d :: ds') (by simp) hd
        (ds'.length + 1) hb
      simp only [List.cons_append] at hch
      have hlen : (d :: (ds' ++ ['s'])).length = ds'.length + 1 + 1 := by simp
      simp [hlen, hch]

/-- Claim C10 amended witness: a non-parsing interval sleeps zero, the
default all-digit interval "300" sleeps exactly 300 seconds, and the
all-digit interval "10000000000", whose nanosecond value overflows int64,
fails to parse and sleeps zero. -/
theorem c10_sleep_amended_witness :
    (parseGoDuration ("abc" ++ "s") = none ∧ sleepNanos "abc" = 0) ∧
    ("300".data ≠ [] ∧ digitsToNat "300".data ≤ 9223372036 ∧
      sleepNanos "300" = (digitsToNat "300".data : Int) * 1000000000) ∧
    (digitsToNat "10000000000".data > 9223372036 ∧
      sleepNanos "10000000000" = 0) :=
  ⟨⟨by decide, (c10_sleep_amended "abc").1 (by decide)⟩,
   ⟨by decide, by decide,
    (c10_sleep_amended "300").2.1 (by decide) (by decide) (by decide)⟩,
   ⟨by decide,
    (c10_sleep_amended "10000000000").2.2 (by decide) (by decide) (by decide)⟩⟩







